import Mathlib

/-!
Verification of the NVIDIA k8s-driver-manager node GPU-driver lifecycle
orchestrator. Definitions are shallow embeddings of the Go sources
(`cmd/nvdrain/main.go`, `internal/kubernetes/client.go`) and of the shell
`driver-manager` script embedded in `deployments/container/Dockerfile.ubi9`.
Label values and resource names are modelled as `List Char` where character
level operations (prefix tests, regexp-style stripping) matter, and as
`String` where only equality matters.
-/

/-! ## Label Encoder (`maybeSetPaused` / `maybeSetTrue`, cmd/nvdrain/main.go) -/

/-- The paused-marker literal `pausedStr = "paused-for-driver-upgrade"`. -/

def pausedChars : List Char := "paused-for-driver-upgrade".toList

/-- The literal `"false"` as a character list. -/

def falseChars : List Char := "false".toList

/-- The literal `"true"` as a character list. -/

def trueChars : List Char := "true".toList

/-- Boolean test that `p` is a leading segment of `l`, mirroring
`strings.HasPrefix`. -/

def listIsPfx : List Char → List Char → Bool
  | [], _ => true
  | _ :: _, [] => false
  | a :: as, b :: bs => a == b && listIsPfx as bs

/-- Boolean substring test, mirroring `strings.Contains`. -/

def containsSeq (needle : List Char) : List Char → Bool
  | [] => listIsPfx needle []
  | c :: t => listIsPfx needle (c :: t) || containsSeq needle t

/-- `DriverManager.maybeSetPaused` (cmd/nvdrain/main.go): empty and `"false"`
are sticky, `"true"` becomes the paused marker, a value already containing the
marker is left alone, anything else gets `"_" + pausedStr` appended. -/

def maybeSetPaused (v : List Char) : List Char :=
  if v = [] then []
  else if v = falseChars then falseChars
  else if v = trueChars then pausedChars
  else if containsSeq pausedChars v then v
  else v ++ '_' :: pausedChars

/-- Drop a single leading underscore, the `_?` part of the Go regexp
`pausedStr + "_?"`. -/

def dropOneUnderscore : List Char → List Char
  | '_' :: t => t
  | l => l

/-- Fuel-indexed scanner that removes every occurrence of the paused marker
followed by an optional underscore, mirroring
`regexp.MustCompile(pausedStr + "_?").ReplaceAllString(v, "")` which replaces
successive non-overlapping leftmost matches. -/

def stripGo : Nat → List Char → List Char
  | 0, l => l
  | _ + 1, [] => []
  | fuel + 1, c :: rest =>
    if listIsPfx pausedChars (c :: rest) then
      stripGo fuel (dropOneUnderscore ((c :: rest).drop pausedChars.length))
    else
      c :: stripGo fuel rest

/-- Remove every `pausedStr` occurrence (with optional trailing underscore)
from `l`. The fuel `l.length` dominates the number of scanner steps. -/

def stripPausedMarker (l : List Char) : List Char := stripGo l.length l

/-- `strings.Trim(s, "_")`: remove all leading and trailing underscores. -/

def trimUnderscores (l : List Char) : List Char :=
  ((l.dropWhile fun c => c == '_').reverse.dropWhile fun c => c == '_').reverse

/-- `DriverManager.maybeSetTrue` (cmd/nvdrain/main.go): `"false"` is sticky,
the bare marker becomes `"true"`, anything else has all marker occurrences
stripped and surrounding underscores trimmed. -/

def maybeSetTrue (v : List Char) : List Char :=
  if v = falseChars then falseChars
  else if v = pausedChars then trueChars
  else trimUnderscores (stripPausedMarker v)

/-! ## Resource-Claim Cache (internal/kubernetes/client.go) -/

/-- Opaque pod identity (`types.UID`). -/

abbrev PodUID := String

/-- One entry of a claim's `Status.ReservedFor` list. -/

structure PodReference where
  resource : String
  uid : PodUID
deriving DecidableEq

/-- One entry of a claim's `Status.Allocation.Devices.Results` list. -/

structure DeviceResult where
  driver : String
deriving DecidableEq

/-- The parts of a `resourcev1.ResourceClaim` read by the cache: the
reserved-for list and the allocation device results (`none` models a nil
`Status.Allocation`). -/

structure ResourceClaim where
  reservedFor : List PodReference
  allocationResults : Option (List DeviceResult)
deriving DecidableEq

/-- Modelled from the spec: the constant `nvidiaDRADriverName` is referenced
by `isNvidiaGPUClaim` in internal/kubernetes/client.go but its definition is
not among the provided sources; the spec names the known GPU driver identifier
for resource-claim matching as `"gpu.nvidia.com"`. -/

def nvidiaDRADriverName : String := "gpu.nvidia.com"

/-- `ResourceClaimCache.isNvidiaGPUClaim`: the claim is allocated and some
allocation device result names the NVIDIA DRA driver. -/

def isNvidiaGPUClaim (claim : ResourceClaim) : Bool :=
  match claim.allocationResults with
  | none => false
  | some results => results.any fun r => r.driver == nvidiaDRADriverName

/-- Set-insert into the cache (`rcc.podUIDs[ref.UID] = struct{}{}`). -/

def cacheInsert (cache : List PodUID) (uid : PodUID) : List PodUID :=
  if uid ∈ cache then cache else cache ++ [uid]

/-- Set-delete from the cache (`delete(rcc.podUIDs, ref.UID)`). -/

def cacheRemove (cache : List PodUID) (uid : PodUID) : List PodUID :=
  cache.filter fun u => !(u == uid)

/-- `ResourceClaimCache.updatePodUIDs`: a no-op for claims not allocated by
the NVIDIA GPU driver, otherwise adds or removes the `"pods"`-kind reserved
identities. -/

def updatePodUIDs (cache : List PodUID) (claim : ResourceClaim) (add : Bool) :
    List PodUID :=
  if !isNvidiaGPUClaim claim then cache
  else
    claim.reservedFor.foldl
      (fun acc ref =>
        if ref.resource != "pods" then acc
        else if add then cacheInsert acc ref.uid
        else cacheRemove acc ref.uid)
      cache

/-- `ResourceClaimCache.PodUsesNvidiaGPU`: membership of the pod identity in
the cached set. -/

def PodUsesNvidiaGPU (cache : List PodUID) (uid : PodUID) : Bool :=
  decide (uid ∈ cache)

/-- Informer events delivered to the cache handlers. -/

inductive ClaimEvent where
  | added (claim : ResourceClaim)
  | updated (oldClaim newClaim : ResourceClaim)
  | deleted (claim : ResourceClaim)

/-- Event dispatch: `AddFunc = handleClaim(true)`, `DeleteFunc =
handleClaim(false)`, `UpdateFunc = onClaimUpdate` (remove pass for the old
object, then add pass for the new one). -/

def applyClaimEvent (cache : List PodUID) : ClaimEvent → List PodUID
  | .added c => updatePodUIDs cache c true
  | .deleted c => updatePodUIDs cache c false
  | .updated o n => updatePodUIDs (updatePodUIDs cache o false) n true

/-- Fold a sequence of informer events over the cache. -/

def applyClaimEvents (cache : List PodUID) (events : List ClaimEvent) :
    List PodUID :=
  events.foldl applyClaimEvent cache

/-- The pod identities named by a claim's `"pods"`-kind reservations. -/

def podsReservedUIDs (claim : ResourceClaim) : List PodUID :=
  (claim.reservedFor.filter fun ref => ref.resource == "pods").map
    fun ref => ref.uid

/-- Scenario claim: allocated by the GPU driver, reserving pods A and B. -/

def claimAB : ResourceClaim :=
  { reservedFor := [⟨"pods", "A"⟩, ⟨"pods", "B"⟩],
    allocationResults := some [⟨"gpu.nvidia.com"⟩] }

/-- Scenario claim: the same claim after its reservation moved to B and C. -/

def claimBC : ResourceClaim :=
  { reservedFor := [⟨"pods", "B"⟩, ⟨"pods", "C"⟩],
    allocationResults := some [⟨"gpu.nvidia.com"⟩] }

/-- Cache contents after `Added(claimAB)` then `Updated(claimAB, claimBC)`. -/

def cacheAfterMove : List PodUID :=
  applyClaimEvents [] [.added claimAB, .updated claimAB claimBC]

/-- Claim allocated by the GPU driver reserving pod P only. -/

def claimP1 : ResourceClaim :=
  { reservedFor := [⟨"pods", "P"⟩],
    allocationResults := some [⟨"gpu.nvidia.com"⟩] }

/-- A second, distinct claim allocated by the GPU driver also reserving P. -/

def claimP2 : ResourceClaim :=
  { reservedFor := [⟨"pods", "P"⟩, ⟨"pods", "Q"⟩],
    allocationResults := some [⟨"gpu.nvidia.com"⟩] }

/-! ## GPU Occupancy Classifier -/

/-- `nvidiaResourceNamePrefix = "nvidia.com/gpu"`. -/

def nvidiaResourceNamePfx : List Char := "nvidia.com/gpu".toList

/-- `nvidiaMigResourcePrefix = "nvidia.com/mig-"`. -/

def nvidiaMigResourcePfx : List Char := "nvidia.com/mig-".toList

/-- One container of a pod spec: the resource names of its limits and
requests maps. -/

structure PodContainer where
  limits : List (List Char)
  requests : List (List Char)

/-- The parts of a `corev1.Pod` the classifier reads: identity, containers,
and the names of declared resource-claim references. -/

structure Pod where
  uid : PodUID
  containers : List PodContainer
  resourceClaimRefs : List String

/-- `gpuInResourceList` (internal/kubernetes/client.go): some resource name
has the GPU or MIG prefix. -/

def gpuInResourceList (rl : List (List Char)) : Bool :=
  rl.any fun name =>
    listIsPfx nvidiaResourceNamePfx name || listIsPfx nvidiaMigResourcePfx name

/-- Step (a) of the classifier, from the source `gpuPodSpecFilter`: scan all
container limits and requests for a GPU or MIG resource name. -/

def podHasGPUResource (pod : Pod) : Bool :=
  pod.containers.any fun c =>
    gpuInResourceList c.limits || gpuInResourceList c.requests

/-- Modelled from the spec: the classifier variant that consults the
Resource-Claim Cache is not among the provided sources (the cache's
`PodUsesNvidiaGPU` has no caller there). Step (a) is embedded from the source
`gpuPodSpecFilter`; step (b) follows the spec: "If the pod declares any
resource-claim references and step (a) found nothing, query the Resource-Claim
Cache by pod identity; a hit is conclusive." -/

def gpuPodSpecFilter (cache : List PodUID) (pod : Pod) : Bool :=
  if podHasGPUResource pod then true
  else if pod.resourceClaimRefs ≠ [] then PodUsesNvidiaGPU cache pod.uid
  else false

/-! ## Module Unload Engine (shell `_unload_driver`, Dockerfile.ubi9) -/

/-- Observation of one kernel module: whether its `refcnt` file exists and the
count read from it. The script reads the count only when the file exists, so
`effRefs` is what ends up in the shell variable. -/

structure ModObs where
  loaded : Bool
  refcnt : Nat
deriving DecidableEq

/-- The fixed module list scanned by `_unload_driver`, base module last. -/

structure ModulesState where
  modeset : ModObs
  uvm : ModObs
  peermem : ModObs
  fs : ModObs
  vgpuVfio : ModObs
  gdrdrv : ModObs
  nvidia : ModObs
deriving DecidableEq

/-- The shell variable for a module's reference count: `0` unless the refcnt
file exists. -/

def effRefs (m : ModObs) : Nat := if m.loaded then m.refcnt else 0

/-- `rmmod_args`: the modules recorded for removal, in scan order. -/

def rmmodArgs (st : ModulesState) : List String :=
  (if st.modeset.loaded then ["nvidia-modeset"] else []) ++
  (if st.uvm.loaded then ["nvidia-uvm"] else []) ++
  (if st.peermem.loaded then ["nvidia-peermem"] else []) ++
  (if st.fs.loaded then ["nvidia-fs"] else []) ++
  (if st.vgpuVfio.loaded then ["nvidia_vgpu_vfio"] else []) ++
  (if st.gdrdrv.loaded then ["gdrdrv"] else []) ++
  (if st.nvidia.loaded then ["nvidia"] else [])

/-- `nvidia_deps`: the number of dependent (non-base) modules found loaded. -/

def nvidiaDeps (st : ModulesState) : Nat :=
  (if st.modeset.loaded then 1 else 0) + (if st.uvm.loaded then 1 else 0) +
  (if st.peermem.loaded then 1 else 0) + (if st.fs.loaded then 1 else 0) +
  (if st.vgpuVfio.loaded then 1 else 0) + (if st.gdrdrv.loaded then 1 else 0)

/-- Outcome of one `_unload_driver` pass: refusal with the in-use diagnostic,
a batch `rmmod` of the recorded modules, or nothing to do. -/

inductive UnloadOutcome where
  | driverInUse
  | rmmod (args : List String)
  | noop
deriving DecidableEq

/-- The final `rmmod "${rmmod_args}"` step, skipped when nothing was
recorded. -/

def unloadPerformRmmod (st : ModulesState) : UnloadOutcome :=
  if rmmodArgs st = [] then .noop else .rmmod (rmmodArgs st)

/-- `_unload_driver`: the vGPU-VFIO exception (base refcount greater than the
dependent count, exactly 2, with `nvidia_vgpu_vfio` recorded) proceeds;
otherwise a base refcount above the dependent count or any nonzero non-base
refcount refuses with "driver is in use"; otherwise the batch removal runs. -/

def unloadDriverScript (st : ModulesState) : UnloadOutcome :=
  if effRefs st.nvidia > nvidiaDeps st ∧ effRefs st.nvidia = 2 ∧
      "nvidia_vgpu_vfio" ∈ rmmodArgs st then
    unloadPerformRmmod st
  else if effRefs st.nvidia > nvidiaDeps st ∨ effRefs st.uvm > 0 ∨
      effRefs st.modeset > 0 ∨ effRefs st.peermem > 0 ∨
      effRefs st.vgpuVfio > 0 ∨ effRefs st.fs > 0 ∨ effRefs st.gdrdrv > 0 then
    .driverInUse
  else
    unloadPerformRmmod st

/-- The documented vGPU-manager intermediate state: the base module holds two
references, only the vGPU-VFIO dependent module is loaded. -/

def vgpuExceptionState : ModulesState :=
  { modeset := ⟨false, 0⟩, uvm := ⟨false, 0⟩, peermem := ⟨false, 0⟩,
    fs := ⟨false, 0⟩, vgpuVfio := ⟨true, 0⟩, gdrdrv := ⟨false, 0⟩,
    nvidia := ⟨true, 2⟩ }

/-! ## Go `DriverManager.unloadDriver` error accumulation (cmd/nvdrain/main.go) -/

/-- Go error values: a `unix.DeleteModule` failure for a module, or the result
of `errors.Join` over a list of non-nil errors. -/

inductive GoError where
  | deleteModuleFailed (module : String)
  | joined (errs : List GoError)

/-- `errors.Join`: `nil` when every argument is `nil`, otherwise a join error
wrapping exactly the non-nil arguments. -/

def errorsJoin (errs : List (Option GoError)) : Option GoError :=
  match errs.filterMap id with
  | [] => none
  | nonNil => some (.joined nonNil)

/-- The fixed module list of the Go `unloadDriver`, base module last. -/

def unloadModulesList : List String :=
  ["nvidia_modeset", "nvidia_uvm", "nvidia_peermem", "nvidia_fs",
   "nvidia_vgpu_vfio", "gdrdrv", "nvidia"]

/-- Observation of one unload pass: whether each module's refcnt file exists,
and the `unix.DeleteModule` failure (if any) for each module. -/

structure UnloadAttemptObs where
  present : String → Bool
  deleteErr : String → Option String

/-- The loop body of the Go `unloadDriver`: on a failed `DeleteModule` the
accumulator is reassigned to `errors.Join(err)` of the current error alone. -/

def unloadGoStep (obs : UnloadAttemptObs) (moduleErrs : Option GoError)
    (m : String) : Option GoError :=
  if obs.present m then
    match obs.deleteErr m with
    | some msg => errorsJoin [some (.deleteModuleFailed msg)]
    | none => moduleErrs
  else moduleErrs

/-- `DriverManager.unloadDriver` error result: fold the loop body over the
fixed module list starting from a nil accumulator. -/

def unloadDriverGo (obs : UnloadAttemptObs) : Option GoError :=
  unloadModulesList.foldl (unloadGoStep obs) none

/-- The delete failures of one pass, in module order. -/

def failingMsgs (obs : UnloadAttemptObs) : List String :=
  unloadModulesList.filterMap fun m =>
    if obs.present m then obs.deleteErr m else none

/-- Observation in which both `nvidia_modeset` and `nvidia_uvm` are loaded and
both fail to unload, with distinct error messages. -/

def twoFailuresObs : UnloadAttemptObs :=
  { present := fun m => m == "nvidia_modeset" || m == "nvidia_uvm",
    deleteErr := fun m =>
      if m == "nvidia_modeset" then some "modeset busy"
      else if m == "nvidia_uvm" then some "uvm busy" else none }

/-! ## Driver Lifecycle Orchestrator (`DriverManager.uninstallDriver`) -/

/-- The per-run configuration fields consulted by `uninstallDriver`. -/

structure DMConfig where
  forceReinstall : Bool
  driverVersion : String
  enableAutoDrain : Bool
  enableGPUPodEviction : Bool
  gpuDirectRDMAEnabled : Bool
  useHostMofed : Bool

/-- Outcomes of the external calls made during one run, one field per call
site. `mofedReadyHost`/`mofedReadyFile` give the poll-indexed results of the
two MOFED readiness probes. `uncordonOk`/`rescheduleOk` are the outcomes of
the two rollback calls, whose failures the Go code only logs. -/

structure DMEnv where
  hostDriver : Bool
  disableOk : Bool
  driverLoaded : Bool
  detect : Except String String
  fetchLabelsOk : Bool
  annotValue : Except String String
  evictOk : Bool
  cordonOk : Bool
  nvDrainOk : Bool
  drainEvictOk : Bool
  cleanupEvictOk : Bool
  driverLoadedAtCleanupPhase : Bool
  cleanupMod1Ok : Bool
  drainModOk : Bool
  cleanupMod2Ok : Bool
  unbindOk : Bool
  mellanoxPresent : Bool
  mofedReadyHost : Nat → Bool
  mofedReadyFile : Nat → Bool
  uncordonOk : Bool
  rescheduleOk : Bool
  nouveauLoaded : Bool
  nouveauUnloadOk : Bool

/-- Node- or cluster-facing operations attempted during a run, in order. -/

inductive DMAction where
  | labelPreInstalled
  | fetchLabels
  | fetchAnnot
  | pauseComponents
  | cordon
  | nvDrain
  | drainNode
  | cleanupDriver
  | unbindVfio
  | uncordon
  | reschedule
  | unloadNouveau
deriving DecidableEq

/-- The distinct error returns of `uninstallDriver`, one per `return fmt.Errorf`
site. -/

inductive UErr where
  | disableContainerizedFailed
  | hostDriverPreinstalled
  | fetchLabelsFailed
  | fetchAnnotFailed
  | evictComponentsFailed
  | cordonFailed
  | gpuPodsNotDrained
  | drainNodeFailed
  | cleanupDriverFailed
  | uninstallComponentsFailed
  | unbindVfioFailed
  | mofedWaitFailed
  | nouveauUnloadFailed
deriving DecidableEq

/-- Result of one phase: continue, fail with an error, or block forever. -/

inductive PhaseOut where
  | ok
  | fail (e : UErr)
  | hang
deriving DecidableEq

/-- `DriverManager.shouldSkipUninstall`: no skip under force-reinstall, with
the driver not loaded, or without a desired version; a failed or mismatching
version detection proceeds; only a successful, matching detection skips. -/

def shouldSkipUninstall (cfg : DMConfig) (env : DMEnv) : Bool :=
  if cfg.forceReinstall then false
  else if !env.driverLoaded then false
  else if cfg.driverVersion == "" then false
  else
    match env.detect with
    | .error _ => false
    | .ok v => v == cfg.driverVersion

/-- `DriverManager.isDriverAutoUpgradePolicyEnabled`: the stored
`nvidia.com/gpu-driver-upgrade-enabled` value equals `"true"`. -/

def isDriverAutoUpgradePolicyEnabled (annot : String) : Bool := annot == "true"

/-- `DriverManager.isAutoDrainEnabled`: disabled by the upgrade policy,
otherwise the flag. -/

def isAutoDrainEnabled (cfg : DMConfig) (annot : String) : Bool :=
  if isDriverAutoUpgradePolicyEnabled annot then false else cfg.enableAutoDrain

/-- `DriverManager.isGPUPodEvictionEnabled`: disabled by the upgrade policy,
otherwise the flag. -/

def isGPUPodEvictionEnabled (cfg : DMConfig) (annot : String) : Bool :=
  if isDriverAutoUpgradePolicyEnabled annot then false
  else cfg.enableGPUPodEviction

/-- `DriverManager.cleanupOnFailure` as the actions it attempts: uncordon
(when eviction or auto-drain applies) then reschedule; failures of either are
only logged, so no outcome is produced. -/

def cleanupOnFailure (cfg : DMConfig) (annot : String) : List DMAction :=
  (if isGPUPodEvictionEnabled cfg annot || isAutoDrainEnabled cfg annot then
    [DMAction.uncordon]
  else []) ++ [DMAction.reschedule]

/-- `DriverManager.waitForMofedDriver`: poll the configured readiness probe
every 5 seconds until it reports ready; there is no timeout and no error exit.
`fuel` bounds the polls we observe; `none` models an execution still waiting. -/

def waitForMofedDriver (useHost : Bool) (readyHost readyFile : Nat → Bool) :
    Nat → Nat → Option (Except UErr Unit)
  | 0, _ => none
  | fuel + 1, k =>
    if (if useHost then readyHost k else readyFile k) then some (.ok ())
    else waitForMofedDriver useHost readyHost readyFile fuel (k + 1)

/-- `DriverManager.isGPUDirectRDMAEnabled`: the flag plus Mellanox devices
present. -/

def isGPUDirectRDMAEnabled (cfg : DMConfig) (env : DMEnv) : Bool :=
  cfg.gpuDirectRDMAEnabled && env.mellanoxPresent

/-- The GPU-pod-eviction block of `uninstallDriver`: cordon (a failure here
returns without cleanup), `nvDrainNode`, and on drain failure either the
fatal no-auto-drain exit or the full-drain-plus-cleanup fallback, each fatal
step routed through `cleanupOnFailure`. -/

def gpuEvictionPhase (cfg : DMConfig) (env : DMEnv) (annot : String) :
    List DMAction × PhaseOut :=
  if isGPUPodEvictionEnabled cfg annot then
    if !env.cordonOk then ([.cordon], .fail .cordonFailed)
    else if env.nvDrainOk then ([.cordon, .nvDrain], .ok)
    else if !isAutoDrainEnabled cfg annot then
      ([.cordon, .nvDrain] ++ cleanupOnFailure cfg annot,
        .fail .gpuPodsNotDrained)
    else if !env.drainEvictOk then
      ([.cordon, .nvDrain, .drainNode] ++ cleanupOnFailure cfg annot,
        .fail .drainNodeFailed)
    else if !env.cleanupEvictOk then
      ([.cordon, .nvDrain, .drainNode, .cleanupDriver] ++
        cleanupOnFailure cfg annot, .fail .cleanupDriverFailed)
    else ([.cordon, .nvDrain, .drainNode, .cleanupDriver], .ok)
  else ([], .ok)

/-- The module-unload block of `uninstallDriver`: when the driver is loaded,
`cleanupDriver`, and on failure either the drain-then-retry fallback (auto
drain on) or the fatal exit, each fatal step routed through
`cleanupOnFailure`. -/

def moduleUnloadPhase (cfg : DMConfig) (env : DMEnv) (annot : String) :
    List DMAction × PhaseOut :=
  if env.driverLoadedAtCleanupPhase then
    if env.cleanupMod1Ok then ([.cleanupDriver], .ok)
    else if isAutoDrainEnabled cfg annot then
      if !env.drainModOk then
        ([.cleanupDriver, .drainNode] ++ cleanupOnFailure cfg annot,
          .fail .drainNodeFailed)
      else if !env.cleanupMod2Ok then
        ([.cleanupDriver, .drainNode, .cleanupDriver] ++
          cleanupOnFailure cfg annot, .fail .cleanupDriverFailed)
      else ([.cleanupDriver, .drainNode, .cleanupDriver], .ok)
    else ([.cleanupDriver] ++ cleanupOnFailure cfg annot,
      .fail .uninstallComponentsFailed)
  else ([], .ok)

/-- The vfio-pci unbind step, fatal through `cleanupOnFailure` on failure. -/

def unbindPhase (cfg : DMConfig) (env : DMEnv) (annot : String) :
    List DMAction × PhaseOut :=
  if env.unbindOk then ([.unbindVfio], .ok)
  else ([.unbindVfio] ++ cleanupOnFailure cfg annot, .fail .unbindVfioFailed)

/-- The MOFED wait step: when GPUDirect RDMA applies, wait for the driver;
the caller's error branch maps a failed wait to `mofedWaitFailed`. -/

def mofedPhase (cfg : DMConfig) (env : DMEnv) (fuel : Nat) :
    List DMAction × PhaseOut :=
  if isGPUDirectRDMAEnabled cfg env then
    match waitForMofedDriver cfg.useHostMofed env.mofedReadyHost
        env.mofedReadyFile fuel 0 with
    | none => ([], .hang)
    | some (.ok _) => ([], .ok)
    | some (.error _) => ([], .fail .mofedWaitFailed)
  else ([], .ok)

/-- The closing steps of `uninstallDriver`: uncordon (when eviction or auto
drain applies) and reschedule, both best-effort, then the nouveau unload,
fatal on failure. -/

def finalPhase (cfg : DMConfig) (env : DMEnv) (annot : String) :
    List DMAction × PhaseOut :=
  let t :=
    (if isGPUPodEvictionEnabled cfg annot || isAutoDrainEnabled cfg annot then
      [DMAction.uncordon]
    else []) ++ [DMAction.reschedule]
  if env.nouveauLoaded then
    if env.nouveauUnloadOk then (t ++ [.unloadNouveau], .ok)
    else (t ++ [.unloadNouveau], .fail .nouveauUnloadFailed)
  else (t, .ok)

/-- Sequential composition of phases: a failure or hang stops the run. -/

def seqPhase (a b : List DMAction × PhaseOut) : List DMAction × PhaseOut :=
  match a.2 with
  | .ok => (a.1 ++ b.1, b.2)
  | _ => a

/-- Convert the final phase outcome into the run result; `none` models a run
still blocked in the MOFED wait. -/

def outcomeOf : PhaseOut → Option (Except UErr Unit)
  | .ok => some (.ok ())
  | .fail e => some (.error e)
  | .hang => none

/-- The composition of the phases that follow a successful component
eviction, in source order. -/

def phasesResult (cfg : DMConfig) (env : DMEnv) (fuel : Nat) (annot : String) :
    List DMAction × PhaseOut :=
  seqPhase (gpuEvictionPhase cfg env annot)
    (seqPhase (moduleUnloadPhase cfg env annot)
      (seqPhase (unbindPhase cfg env annot)
        (seqPhase (mofedPhase cfg env fuel) (finalPhase cfg env annot))))

/-- The run result once labels and the upgrade policy value were fetched and
component eviction succeeded. -/

def mainResult (cfg : DMConfig) (env : DMEnv) (fuel : Nat) (annot : String) :
    List DMAction × Option (Except UErr Unit) :=
  ([.fetchLabels, .fetchAnnot, .pauseComponents] ++
    (phasesResult cfg env fuel annot).1,
    outcomeOf (phasesResult cfg env fuel annot).2)

/-- `DriverManager.uninstallDriver` as a function from the call outcomes to
the trace of attempted operations and the run result. -/

def uninstallDriver (cfg : DMConfig) (env : DMEnv) (fuel : Nat) :
    List DMAction × Option (Except UErr Unit) :=
  if env.hostDriver then
    if env.disableOk then
      ([.labelPreInstalled], some (.error .hostDriverPreinstalled))
    else ([.labelPreInstalled], some (.error .disableContainerizedFailed))
  else if shouldSkipUninstall cfg env then ([], some (.ok ()))
  else if !env.fetchLabelsOk then
    ([.fetchLabels], some (.error .fetchLabelsFailed))
  else
    match env.annotValue with
    | .error _ => ([.fetchLabels, .fetchAnnot], some (.error .fetchAnnotFailed))
    | .ok annot =>
      if !env.evictOk then
        ([.fetchLabels, .fetchAnnot, .pauseComponents] ++
          cleanupOnFailure cfg annot, some (.error .evictComponentsFailed))
      else mainResult cfg env fuel annot

/-- Configuration with both eviction toggles on, used to show the annotation
override wins over the flags. -/

def policyTrueConfig : DMConfig :=
  { forceReinstall := true, driverVersion := "", enableAutoDrain := true,
    enableGPUPodEviction := true, gpuDirectRDMAEnabled := false,
    useHostMofed := false }

/-- Call outcomes for a run whose annotation value is `"true"` and whose first
module cleanup fails, exercising the skipped auto-drain fallback. -/

def policyTrueEnv : DMEnv :=
  { hostDriver := false, disableOk := true, driverLoaded := true,
    detect := .error "n", fetchLabelsOk := true, annotValue := .ok "true",
    evictOk := true, cordonOk := true, nvDrainOk := true,
    drainEvictOk := true, cleanupEvictOk := true,
    driverLoadedAtCleanupPhase := true, cleanupMod1Ok := false,
    drainModOk := true, cleanupMod2Ok := true, unbindOk := true,
    mellanoxPresent := false, mofedReadyHost := fun _ => true,
    mofedReadyFile := fun _ => true, uncordonOk := true, rescheduleOk := true,
    nouveauLoaded := false, nouveauUnloadOk := true }

/-- Configuration requesting driver version 570.1 without force-reinstall. -/

def skipMatchConfig : DMConfig :=
  { forceReinstall := false, driverVersion := "570.1",
    enableAutoDrain := true, enableGPUPodEviction := true,
    gpuDirectRDMAEnabled := false, useHostMofed := false }

/-- Call outcomes where the loaded driver's detected version is 570.1. -/

def skipMatchEnv : DMEnv :=
  { hostDriver := false, disableOk := true, driverLoaded := true,
    detect := .ok "570.1", fetchLabelsOk := true, annotValue := .ok "",
    evictOk := true, cordonOk := true, nvDrainOk := true,
    drainEvictOk := true, cleanupEvictOk := true,
    driverLoadedAtCleanupPhase := true, cleanupMod1Ok := true,
    drainModOk := true, cleanupMod2Ok := true, unbindOk := true,
    mellanoxPresent := false, mofedReadyHost := fun _ => true,
    mofedReadyFile := fun _ => true, uncordonOk := true, rescheduleOk := true,
    nouveauLoaded := false, nouveauUnloadOk := true }

/-- Configuration for the cordon-failure counterexample: eviction enabled,
force-reinstall set so the skip check is bypassed. -/

def cordonFailConfig : DMConfig :=
  { forceReinstall := true, driverVersion := "", enableAutoDrain := true,
    enableGPUPodEviction := true, gpuDirectRDMAEnabled := false,
    useHostMofed := false }

/-- Call outcomes where everything succeeds up to the cordon call, which
fails. -/

def cordonFailEnv : DMEnv :=
  { hostDriver := false, disableOk := true, driverLoaded := true,
    detect := .error "x", fetchLabelsOk := true, annotValue := .ok "",
    evictOk := true, cordonOk := false, nvDrainOk := true,
    drainEvictOk := true, cleanupEvictOk := true,
    driverLoadedAtCleanupPhase := true, cleanupMod1Ok := true,
    drainModOk := true, cleanupMod2Ok := true, unbindOk := true,
    mellanoxPresent := false, mofedReadyHost := fun _ => true,
    mofedReadyFile := fun _ => true, uncordonOk := true, rescheduleOk := true,
    nouveauLoaded := false, nouveauUnloadOk := true }

/-- Call outcomes where the vfio-pci unbind fails after a successful eviction
and module cleanup. -/

def unbindFailEnv : DMEnv :=
  { hostDriver := false, disableOk := true, driverLoaded := true,
    detect := .error "x", fetchLabelsOk := true, annotValue := .ok "",
    evictOk := true, cordonOk := true, nvDrainOk := true,
    drainEvictOk := true, cleanupEvictOk := true,
    driverLoadedAtCleanupPhase := true, cleanupMod1Ok := true,
    drainModOk := true, cleanupMod2Ok := true, unbindOk := false,
    mellanoxPresent := false, mofedReadyHost := fun _ => true,
    mofedReadyFile := fun _ => true, uncordonOk := true, rescheduleOk := true,
    nouveauLoaded := false, nouveauUnloadOk := true }

/-! ## Theorems -/

/-! ### Round-trip lemmas for the Label Encoder -/

theorem dropOneUnderscore_length_le (l : List Char) :
    (dropOneUnderscore l).length ≤ l.length := by
  unfold dropOneUnderscore
  split <;> simp

theorem underscore_not_mem_pausedChars : ('_' ∈ pausedChars) = False := by
  decide

/-- If `p` avoids `'_'` and is not a leading segment of `v`, appending
`'_' :: w` to `v` cannot create one. -/
theorem listIsPfx_append_underscore (p : List Char) (hp : '_' ∉ p) :
    ∀ (v w : List Char), listIsPfx p v = false →
      listIsPfx p (v ++ '_' :: w) = false := by
  induction p with
  | nil => intro v w h; simp [listIsPfx] at h
  | cons a p' ih =>
    intro v w h
    cases v with
    | nil =>
      have ha : a ≠ '_' := by
        intro hEq
        exact hp (by simp [hEq])
      simp only [List.nil_append, listIsPfx, Bool.and_eq_false_iff]
      left
      simpa using ha
    | cons b v' =>
      simp only [listIsPfx, Bool.and_eq_false_iff] at h
      rcases h with h | h
      · simp [listIsPfx, h]
      · have hp' : '_' ∉ p' := fun hMem => hp (by simp [hMem])
        simp only [List.cons_append, listIsPfx, Bool.and_eq_false_iff]
        right
        exact ih hp' v' w h

theorem stripGo_nil (fuel : Nat) : stripGo fuel [] = [] := by
  cases fuel <;> rfl

theorem stripGo_pausedChars (fuel : Nat) (h : 2 ≤ fuel) :
    stripGo fuel pausedChars = [] := by
  match fuel, h with
  | f + 2, _ =>
    have hpfx : listIsPfx pausedChars pausedChars = true := by decide
    show stripGo (f + 2) pausedChars = []
    rw [show (f + 2) = (f + 1) + 1 from rfl]
    rw [show pausedChars = 'p' :: pausedChars.tail from rfl]
    rw [stripGo]
    rw [show ('p' :: pausedChars.tail) = pausedChars from rfl, hpfx]
    simp only [if_true]
    rw [show dropOneUnderscore (pausedChars.drop pausedChars.length) =
        ([] : List Char) from rfl]
    exact stripGo_nil (f + 1)

/-- Core scanner lemma: on `v ++ "_" ++ pausedStr` with `v` free of the
marker, exactly the final marker is removed. -/
theorem stripGo_append (v : List Char) (hv : containsSeq pausedChars v = false) :
    ∀ fuel, v.length + 3 ≤ fuel →
      stripGo fuel (v ++ '_' :: pausedChars) = v ++ ['_'] := by
  induction v with
  | nil =>
    intro fuel hfuel
    match fuel, hfuel with
    | f + 3, _ =>
      have hnp : listIsPfx pausedChars ('_' :: pausedChars) = false := by decide
      show stripGo (f + 3) ('_' :: pausedChars) = ['_']
      rw [show (f + 3) = (f + 2) + 1 from rfl, stripGo, hnp]
      simp only [if_false, Bool.false_eq_true]
      rw [stripGo_pausedChars (f + 2) (by omega)]
  | cons c v' ih =>
    intro fuel hfuel
    simp only [containsSeq, Bool.or_eq_false_iff] at hv
    obtain ⟨hnp, hv'⟩ := hv
    match fuel, hfuel with
    | f + 1, _ =>
      have hnp2 : listIsPfx pausedChars ((c :: v') ++ '_' :: pausedChars) = false := by
        have := listIsPfx_append_underscore pausedChars
          (by simpa using underscore_not_mem_pausedChars) (c :: v') pausedChars hnp
        exact this
      show stripGo (f + 1) (c :: (v' ++ '_' :: pausedChars)) = c :: (v' ++ ['_'])
      rw [stripGo]
      rw [show (c :: (v' ++ '_' :: pausedChars)) = ((c :: v') ++ '_' :: pausedChars) from rfl,
        hnp2]
      simp only [if_false, Bool.false_eq_true]
      have : stripGo f (v' ++ '_' :: pausedChars) = v' ++ ['_'] := by
        apply ih hv' f
        simp only [List.length_cons] at *
        omega
      rw [this]

/-- Trimming underscores from `v ++ "_"` recovers `v` when `v` neither starts
nor ends with an underscore. -/
theorem trimUnderscores_append (v : List Char) (h2 : v ≠ [])
    (h4 : v.head? ≠ some '_') (h5 : v.reverse.head? ≠ some '_') :
    trimUnderscores (v ++ ['_']) = v := by
  obtain ⟨c, t, rfl⟩ := List.exists_cons_of_ne_nil h2
  have hc : (c == '_') = false := by
    simp only [List.head?_cons, ne_eq, Option.some.injEq] at h4
    simpa using h4
  unfold trimUnderscores
  rw [show ((c :: t) ++ ['_'] : List Char) = c :: (t ++ ['_']) from rfl]
  rw [List.dropWhile_cons, hc]
  simp only [Bool.false_eq_true, if_false]
  rw [show (c :: (t ++ ['_']) : List Char).reverse = '_' :: (c :: t).reverse by
    simp]
  have hstep : ('_' :: (c :: t).reverse).dropWhile (fun c => c == '_') =
      (c :: t).reverse.dropWhile (fun c => c == '_') := by
    rw [List.dropWhile_cons]
    simp
  rw [hstep]
  cases hrev : (c :: t).reverse with
  | nil => simp at hrev
  | cons d r =>
    have hd : (d == '_') = false := by
      rw [hrev] at h5
      simp only [List.head?_cons, ne_eq, Option.some.injEq] at h5
      simpa using h5
    rw [List.dropWhile_cons, hd]
    simp only [Bool.false_eq_true, if_false]
    rw [← hrev, List.reverse_reverse]

theorem pausedChars_length : pausedChars.length = 25 := by decide

/-- C3 (amended): for label values `v` that are not `"false"`, not empty, do
not contain the paused marker, and neither start nor end with `'_'`, the
resume function inverts the pause function: `maybeSetTrue (maybeSetPaused v) = v`. -/
theorem maybeSetTrue_maybeSetPaused_roundtrip (v : List Char)
    (h1 : v ≠ falseChars) (h2 : v ≠ [])
    (h3 : containsSeq pausedChars v = false)
    (h4 : v.head? ≠ some '_') (h5 : v.reverse.head? ≠ some '_') :
    maybeSetTrue (maybeSetPaused v) = v := by
  by_cases hv : v = trueChars
  · subst hv
    decide
  · have hpause : maybeSetPaused v = v ++ '_' :: pausedChars := by
      unfold maybeSetPaused
      rw [if_neg h2, if_neg h1, if_neg hv, if_neg (by simp [h3])]
    rw [hpause]
    have hlen : (v ++ '_' :: pausedChars).length = v.length + 26 := by
      simp [pausedChars_length]
    have hne1 : v ++ '_' :: pausedChars ≠ falseChars := by
      intro hEq
      have := congrArg List.length hEq
      rw [hlen] at this
      simp [falseChars] at this
    have hne2 : v ++ '_' :: pausedChars ≠ pausedChars := by
      intro hEq
      have := congrArg List.length hEq
      rw [hlen, pausedChars_length] at this
      omega
    unfold maybeSetTrue
    rw [if_neg hne1, if_neg hne2]
    unfold stripPausedMarker
    rw [stripGo_append v h3 (v ++ '_' :: pausedChars).length (by omega)]
    exact trimUnderscores_append v h2 h4 h5

/-- C3 witness: the round trip holds on the concrete label value `"abc"`. -/
theorem maybeSetTrue_maybeSetPaused_roundtrip_witness :
    ("abc".toList ≠ falseChars ∧ "abc".toList ≠ [] ∧
      containsSeq pausedChars "abc".toList = false ∧
      "abc".toList.head? ≠ some '_' ∧ "abc".toList.reverse.head? ≠ some '_') ∧
    maybeSetTrue (maybeSetPaused "abc".toList) = "abc".toList :=
  ⟨⟨by decide, by decide, by decide, by decide, by decide⟩,
    maybeSetTrue_maybeSetPaused_roundtrip "abc".toList (by decide) (by decide)
      (by decide) (by decide) (by decide)⟩

/-- C3 counterexample: the round trip fails on the bare paused marker (which
resumes to `"true"`) and on `"_a"` (whose leading underscore is trimmed away),
both of which are neither `"false"` nor empty. -/
theorem maybeSetTrue_maybeSetPaused_not_roundtrip :
    (pausedChars ≠ falseChars ∧ pausedChars ≠ [] ∧
      maybeSetTrue (maybeSetPaused pausedChars) ≠ pausedChars) ∧
    ("_a".toList ≠ falseChars ∧ "_a".toList ≠ [] ∧
      maybeSetTrue (maybeSetPaused "_a".toList) ≠ "_a".toList) := by
  decide

theorem mem_cacheInsert (cache : List PodUID) (u uid : PodUID) :
    uid ∈ cacheInsert cache u ↔ uid ∈ cache ∨ uid = u := by
  unfold cacheInsert
  split
  · constructor
    · exact fun h => Or.inl h
    · rintro (h | rfl)
      · exact h
      · assumption
  · simp

theorem mem_addFold (refs : List PodReference) :
    ∀ (cache : List PodUID) (uid : PodUID),
      uid ∈ refs.foldl
        (fun acc ref =>
          if ref.resource != "pods" then acc else cacheInsert acc ref.uid)
        cache ↔
      uid ∈ cache ∨ uid ∈ (refs.filter fun ref => ref.resource == "pods").map
        (fun ref => ref.uid) := by
  induction refs with
  | nil => intro cache uid; simp
  | cons ref rest ih =>
    intro cache uid
    by_cases hres : ref.resource = "pods"
    · have hbeq : (ref.resource != "pods") = false := by simp [hres]
      simp only [List.foldl_cons, hbeq, Bool.false_eq_true, if_false,
        List.filter_cons]
      rw [ih (cacheInsert cache ref.uid) uid]
      simp only [mem_cacheInsert]
      have hpods : (ref.resource == "pods") = true := by simp [hres]
      simp only [hpods, if_true, List.map_cons, List.mem_cons]
      tauto
    · have hbeq : (ref.resource != "pods") = true := by simp [hres]
      simp only [List.foldl_cons, hbeq, if_true, List.filter_cons]
      rw [ih cache uid]
      have : (ref.resource == "pods") = false := by simp [hres]
      simp [this]

/-- C6: for a claim allocated by the GPU driver, an `Added` event inserts
exactly the `"pods"`-kind reserved identities; an `Updated` event is a remove
pass for the old object followed by an add pass for the new one; and after
`Added` reserving pods A,B then `Updated` moving the reservation to B,C, the
cache reports occupancy false for A and true for B and C. -/
theorem resourceClaimCache_added_updated_spec :
    (∀ (cache : List PodUID) (claim : ResourceClaim) (uid : PodUID),
      isNvidiaGPUClaim claim = true →
      (PodUsesNvidiaGPU (applyClaimEvent cache (.added claim)) uid = true ↔
        PodUsesNvidiaGPU cache uid = true ∨ uid ∈ podsReservedUIDs claim)) ∧
    (∀ (cache : List PodUID) (o n : ResourceClaim),
      applyClaimEvent cache (.updated o n) =
        updatePodUIDs (updatePodUIDs cache o false) n true) ∧
    (PodUsesNvidiaGPU cacheAfterMove "A" = false ∧
      PodUsesNvidiaGPU cacheAfterMove "B" = true ∧
      PodUsesNvidiaGPU cacheAfterMove "C" = true) := by
  refine ⟨?_, ?_, by decide⟩
  · intro cache claim uid hclaim
    have hni : (!isNvidiaGPUClaim claim) = false := by simp [hclaim]
    simp only [applyClaimEvent, updatePodUIDs, hni, Bool.false_eq_true,
      if_false, PodUsesNvidiaGPU, decide_eq_true_eq, podsReservedUIDs]
    simp only [if_true]
    exact mem_addFold claim.reservedFor cache uid
  · intro cache o n
    rfl

/-- C6 witness: the `Added` membership equivalence instantiated on a concrete
cache, claim and pod identity. -/
theorem resourceClaimCache_added_updated_spec_witness :
    isNvidiaGPUClaim claimAB = true ∧
    PodUsesNvidiaGPU (applyClaimEvent ["X"] (.added claimAB)) "B" = true :=
  ⟨by decide,
    (resourceClaimCache_added_updated_spec.1 ["X"] claimAB "B" (by decide)).2
      (Or.inr (by decide))⟩

/-- C8: the cache is a flat set without per-claim reference counting: after
both claims (each allocated by the GPU driver) reserve P, deleting just one of
them makes the cache report occupancy false for P even though the other claim
still reserves P. -/
theorem resourceClaimCache_no_refcounting :
    claimP1 ≠ claimP2 ∧
    isNvidiaGPUClaim claimP1 = true ∧ isNvidiaGPUClaim claimP2 = true ∧
    "P" ∈ podsReservedUIDs claimP1 ∧ "P" ∈ podsReservedUIDs claimP2 ∧
    PodUsesNvidiaGPU
      (applyClaimEvents [] [.added claimP1, .added claimP2, .deleted claimP1])
      "P" = false ∧
    PodUsesNvidiaGPU
      (applyClaimEvents [] [.added claimP1, .added claimP2, .deleted claimP1])
      "Q" = true := by
  decide

/-- C1: a pod with a GPU- or MIG-prefixed container resource name is
classified GPU-occupying whatever the cache contents; a pod without such a
name but with resource-claim references and a cache hit on its identity is
classified GPU-occupying; a pod with neither is not. -/
theorem gpuPodSpecFilter_spec (cache : List PodUID) (pod : Pod) :
    ((∃ c ∈ pod.containers, ∃ name,
        (name ∈ c.limits ∨ name ∈ c.requests) ∧
        (listIsPfx nvidiaResourceNamePfx name = true ∨
          listIsPfx nvidiaMigResourcePfx name = true)) →
      ∀ cache2 : List PodUID, gpuPodSpecFilter cache2 pod = true) ∧
    ((¬ ∃ c ∈ pod.containers, ∃ name,
        (name ∈ c.limits ∨ name ∈ c.requests) ∧
        (listIsPfx nvidiaResourceNamePfx name = true ∨
          listIsPfx nvidiaMigResourcePfx name = true)) →
      pod.resourceClaimRefs ≠ [] → PodUsesNvidiaGPU cache pod.uid = true →
      gpuPodSpecFilter cache pod = true) ∧
    ((¬ ∃ c ∈ pod.containers, ∃ name,
        (name ∈ c.limits ∨ name ∈ c.requests) ∧
        (listIsPfx nvidiaResourceNamePfx name = true ∨
          listIsPfx nvidiaMigResourcePfx name = true)) →
      ¬ (pod.resourceClaimRefs ≠ [] ∧ PodUsesNvidiaGPU cache pod.uid = true) →
      gpuPodSpecFilter cache pod = false) := by
  have hchar : podHasGPUResource pod = true ↔
      ∃ c ∈ pod.containers, ∃ name,
        (name ∈ c.limits ∨ name ∈ c.requests) ∧
        (listIsPfx nvidiaResourceNamePfx name = true ∨
          listIsPfx nvidiaMigResourcePfx name = true) := by
    simp only [podHasGPUResource, gpuInResourceList, List.any_eq_true,
      Bool.or_eq_true]
    constructor
    · rintro ⟨c, hc, h | h⟩ <;>
        · obtain ⟨name, hname, hpfx⟩ := h
          exact ⟨c, hc, name, by tauto, hpfx⟩
    · rintro ⟨c, hc, name, hname | hname, hpfx⟩
      · exact ⟨c, hc, Or.inl ⟨name, hname, hpfx⟩⟩
      · exact ⟨c, hc, Or.inr ⟨name, hname, hpfx⟩⟩
  refine ⟨?_, ?_, ?_⟩
  · intro hres cache2
    have : podHasGPUResource pod = true := hchar.2 hres
    simp [gpuPodSpecFilter, this]
  · intro hres hrefs hhit
    have : podHasGPUResource pod = false := by
      rcases h : podHasGPUResource pod with _ | _
      · rfl
      · exact absurd (hchar.1 h) hres
    simp [gpuPodSpecFilter, this, hrefs, hhit]
  · intro hres hmiss
    have hfalse : podHasGPUResource pod = false := by
      rcases h : podHasGPUResource pod with _ | _
      · rfl
      · exact absurd (hchar.1 h) hres
    by_cases hrefs : pod.resourceClaimRefs = []
    · simp [gpuPodSpecFilter, hfalse, hrefs]
    · have hnohit : PodUsesNvidiaGPU cache pod.uid = false := by
        rcases h : PodUsesNvidiaGPU cache pod.uid with _ | _
        · rfl
        · exact absurd ⟨hrefs, h⟩ hmiss
      simp [gpuPodSpecFilter, hfalse, hrefs, hnohit]

/-- C1 witness: a pod with a `nvidia.com/mig-1g.5gb` request is classified
GPU-occupying against the empty cache. -/
theorem gpuPodSpecFilter_spec_witness :
    (∃ c ∈ [PodContainer.mk [] ["nvidia.com/mig-1g.5gb".toList]], ∃ name,
      (name ∈ c.limits ∨ name ∈ c.requests) ∧
      (listIsPfx nvidiaResourceNamePfx name = true ∨
        listIsPfx nvidiaMigResourcePfx name = true)) ∧
    gpuPodSpecFilter []
      (Pod.mk "W" [PodContainer.mk [] ["nvidia.com/mig-1g.5gb".toList]] []) = true := by
  have hx : ∃ c ∈ [PodContainer.mk [] ["nvidia.com/mig-1g.5gb".toList]], ∃ name,
      (name ∈ c.limits ∨ name ∈ c.requests) ∧
      (listIsPfx nvidiaResourceNamePfx name = true ∨
        listIsPfx nvidiaMigResourcePfx name = true) := by
    refine ⟨_, List.mem_singleton.2 rfl, "nvidia.com/mig-1g.5gb".toList, ?_, ?_⟩
    · right; simp
    · right; decide
  exact ⟨hx,
    (gpuPodSpecFilter_spec []
      (Pod.mk "W" [PodContainer.mk [] ["nvidia.com/mig-1g.5gb".toList]] [])).1 hx []⟩

theorem unloadPerformRmmod_ne_inUse (st : ModulesState) :
    unloadPerformRmmod st ≠ .driverInUse := by
  unfold unloadPerformRmmod
  split <;> simp

/-- C2: `_unload_driver` refuses (reports the driver in use, removing
nothing) precisely when the base refcount exceeds the dependent-module count
or some non-base refcount is nonzero, except for the vGPU-VFIO combination
(base refcount exactly 2, above the dependent count, `nvidia_vgpu_vfio`
recorded), in which case all recorded modules are removed. -/
theorem unloadDriverScript_refusal_iff (st : ModulesState) :
    (unloadDriverScript st = .driverInUse ↔
      ((effRefs st.nvidia > nvidiaDeps st ∨ effRefs st.uvm > 0 ∨
        effRefs st.modeset > 0 ∨ effRefs st.peermem > 0 ∨
        effRefs st.vgpuVfio > 0 ∨ effRefs st.fs > 0 ∨
        effRefs st.gdrdrv > 0) ∧
      ¬ (effRefs st.nvidia = 2 ∧ effRefs st.nvidia > nvidiaDeps st ∧
          "nvidia_vgpu_vfio" ∈ rmmodArgs st))) ∧
    (effRefs st.nvidia = 2 ∧ effRefs st.nvidia > nvidiaDeps st ∧
        "nvidia_vgpu_vfio" ∈ rmmodArgs st →
      unloadDriverScript st = .rmmod (rmmodArgs st)) := by
  constructor
  · unfold unloadDriverScript
    by_cases hE : effRefs st.nvidia > nvidiaDeps st ∧ effRefs st.nvidia = 2 ∧
        "nvidia_vgpu_vfio" ∈ rmmodArgs st
    · rw [if_pos hE]
      constructor
      · intro h
        exact absurd h (unloadPerformRmmod_ne_inUse st)
      · rintro ⟨_, hnE⟩
        exact absurd ⟨hE.2.1, hE.1, hE.2.2⟩ hnE
    · rw [if_neg hE]
      by_cases hD : effRefs st.nvidia > nvidiaDeps st ∨ effRefs st.uvm > 0 ∨
          effRefs st.modeset > 0 ∨ effRefs st.peermem > 0 ∨
          effRefs st.vgpuVfio > 0 ∨ effRefs st.fs > 0 ∨ effRefs st.gdrdrv > 0
      · rw [if_pos hD]
        constructor
        · intro _
          exact ⟨hD, fun hE2 => hE ⟨hE2.2.1, hE2.1, hE2.2.2⟩⟩
        · intro _
          rfl
      · rw [if_neg hD]
        constructor
        · intro h
          exact absurd h (unloadPerformRmmod_ne_inUse st)
        · rintro ⟨hD2, _⟩
          exact absurd hD2 hD
  · rintro ⟨h2, hgt, hmem⟩
    unfold unloadDriverScript
    rw [if_pos ⟨hgt, h2, hmem⟩]
    unfold unloadPerformRmmod
    rw [if_neg (by simpa using List.ne_nil_of_mem hmem)]

/-- C2 witness: the refusal equivalence and the exception behaviour on the
documented vGPU-manager state, which proceeds to remove both modules. -/
theorem unloadDriverScript_refusal_iff_witness :
    (effRefs vgpuExceptionState.nvidia = 2 ∧
      effRefs vgpuExceptionState.nvidia > nvidiaDeps vgpuExceptionState ∧
      "nvidia_vgpu_vfio" ∈ rmmodArgs vgpuExceptionState) ∧
    unloadDriverScript vgpuExceptionState = .rmmod (rmmodArgs vgpuExceptionState) :=
  ⟨by decide,
    (unloadDriverScript_refusal_iff vgpuExceptionState).2 (by decide)⟩

theorem getLast?_cons_of_getLast? {α : Type} (a : α) (l : List α) (m : α)
    (h : l.getLast? = some m) : (a :: l).getLast? = some m := by
  cases l with
  | nil => simp at h
  | cons b t => rw [List.getLast?_cons_cons]; exact h

theorem getLast?_cons_of_nil {α : Type} (a : α) (l : List α)
    (h : l.getLast? = none) : (a :: l).getLast? = some a := by
  have : l = [] := by
    cases l with
    | nil => rfl
    | cons b t =>
      rw [show (b :: t).getLast? = some ((b :: t).getLast (by simp)) from
        List.getLast?_eq_getLast _ _] at h
      simp at h
  subst this
  rfl

theorem unloadFold_eq (obs : UnloadAttemptObs) :
    ∀ (ms : List String) (acc : Option GoError),
      ms.foldl (unloadGoStep obs) acc =
        match (ms.filterMap fun m =>
            if obs.present m then obs.deleteErr m else none).getLast? with
        | some msg => some (.joined [.deleteModuleFailed msg])
        | none => acc := by
  intro ms
  induction ms with
  | nil => intro acc; simp
  | cons m rest ih =>
    intro acc
    by_cases hp : obs.present m
    · cases hd : obs.deleteErr m with
      | none =>
        have hstep : unloadGoStep obs acc m = acc := by
          unfold unloadGoStep
          rw [if_pos hp, hd]
        rw [List.foldl_cons, hstep, ih acc]
        have hfm : ((m :: rest).filterMap fun m =>
            if obs.present m then obs.deleteErr m else none) =
            rest.filterMap fun m =>
              if obs.present m then obs.deleteErr m else none := by
          rw [List.filterMap_cons]
          rw [if_pos hp, hd]
        rw [hfm]
      | some msg =>
        have hstep : unloadGoStep obs acc m =
            some (.joined [.deleteModuleFailed msg]) := by
          unfold unloadGoStep
          rw [if_pos hp, hd]
          rfl
        rw [List.foldl_cons, hstep,
          ih (some (.joined [.deleteModuleFailed msg]))]
        have hfm : ((m :: rest).filterMap fun m =>
            if obs.present m then obs.deleteErr m else none) =
            msg :: rest.filterMap fun m =>
              if obs.present m then obs.deleteErr m else none := by
          rw [List.filterMap_cons]
          rw [if_pos hp, hd]
        rw [hfm]
        cases hr : (rest.filterMap fun m =>
            if obs.present m then obs.deleteErr m else none).getLast? with
        | none => rw [getLast?_cons_of_nil msg _ hr]
        | some m2 => rw [getLast?_cons_of_getLast? msg _ m2 hr]
    · have hstep : unloadGoStep obs acc m = acc := by
        unfold unloadGoStep
        rw [if_neg hp]
      rw [List.foldl_cons, hstep, ih acc]
      have hfm : ((m :: rest).filterMap fun m =>
          if obs.present m then obs.deleteErr m else none) =
          rest.filterMap fun m =>
            if obs.present m then obs.deleteErr m else none := by
        rw [List.filterMap_cons]
        rw [if_neg hp]
      rw [hfm]

/-- C10: when modules fail to unload, the Go `unloadDriver` returns
`errors.Join` of the most recent failure alone — every earlier module's
unload error is discarded — and returns nil when no module fails. -/
theorem unloadDriverGo_keeps_only_last_error (obs : UnloadAttemptObs) :
    (∀ msg, (failingMsgs obs).getLast? = some msg →
      unloadDriverGo obs = some (.joined [.deleteModuleFailed msg])) ∧
    ((failingMsgs obs).getLast? = none → unloadDriverGo obs = none) := by
  constructor
  · intro msg hlast
    unfold unloadDriverGo
    rw [unloadFold_eq obs unloadModulesList none]
    rw [show (unloadModulesList.filterMap fun m =>
        if obs.present m then obs.deleteErr m else none) = failingMsgs obs
      from rfl]
    rw [hlast]
  · intro hnone
    unfold unloadDriverGo
    rw [unloadFold_eq obs unloadModulesList none]
    rw [show (unloadModulesList.filterMap fun m =>
        if obs.present m then obs.deleteErr m else none) = failingMsgs obs
      from rfl]
    rw [hnone]

/-- C10 witness: with two failing modules only the later failure (`nvidia_uvm`)
survives in the returned error. -/
theorem unloadDriverGo_keeps_only_last_error_witness :
    (failingMsgs twoFailuresObs).getLast? = some "uvm busy" ∧
    unloadDriverGo twoFailuresObs =
      some (.joined [.deleteModuleFailed "uvm busy"]) :=
  ⟨rfl, (unloadDriverGo_keeps_only_last_error twoFailuresObs).1 "uvm busy" rfl⟩

/-! ### Orchestrator lemmas -/

theorem reschedule_mem_cleanupOnFailure (cfg : DMConfig) (annot : String) :
    DMAction.reschedule ∈ cleanupOnFailure cfg annot := by
  unfold cleanupOnFailure
  split <;> simp

theorem waitForMofedDriver_ok_aux (useHost : Bool)
    (readyHost readyFile : Nat → Bool) :
    ∀ (fuel k : Nat) (r : Except UErr Unit),
      waitForMofedDriver useHost readyHost readyFile fuel k = some r →
      r = .ok () := by
  intro fuel
  induction fuel with
  | zero => intro k r h; simp [waitForMofedDriver] at h
  | succ f ih =>
    intro k r h
    rw [waitForMofedDriver] at h
    by_cases hc : (if useHost then readyHost k else readyFile k) = true
    · rw [if_pos hc] at h
      have : (Except.ok () : Except UErr Unit) = r := by simpa using h
      exact this.symm
    · rw [if_neg hc] at h
      exact ih (k + 1) r h

theorem mofedPhase_not_fail (cfg : DMConfig) (env : DMEnv) (fuel : Nat)
    (e : UErr) : (mofedPhase cfg env fuel).2 ≠ .fail e := by
  unfold mofedPhase
  split
  · cases hw : waitForMofedDriver cfg.useHostMofed env.mofedReadyHost
        env.mofedReadyFile fuel 0 with
    | none => simp
    | some r =>
      have := waitForMofedDriver_ok_aux cfg.useHostMofed env.mofedReadyHost
        env.mofedReadyFile fuel 0 r hw
      subst this
      simp
  · simp

theorem mofedPhase_trace_nil (cfg : DMConfig) (env : DMEnv) (fuel : Nat) :
    (mofedPhase cfg env fuel).1 = [] := by
  unfold mofedPhase
  split
  · split <;> rfl
  · rfl

theorem seqPhase_eq_of_ok {a : List DMAction × PhaseOut}
    (b : List DMAction × PhaseOut) (ha : a.2 = .ok) :
    seqPhase a b = (a.1 ++ b.1, b.2) := by
  unfold seqPhase
  rw [ha]

theorem seqPhase_eq_of_stop {a : List DMAction × PhaseOut}
    (b : List DMAction × PhaseOut) (ha : a.2 ≠ .ok) : seqPhase a b = a := by
  unfold seqPhase
  cases h : a.2 with
  | ok => exact absurd h ha
  | fail e => rfl
  | hang => rfl

theorem seqPhase_fail_split (a b : List DMAction × PhaseOut) (e : UErr)
    (h : (seqPhase a b).2 = .fail e) :
    (a.2 = .fail e ∧ (seqPhase a b).1 = a.1) ∨
    (a.2 = .ok ∧ b.2 = .fail e ∧ (seqPhase a b).1 = a.1 ++ b.1) := by
  cases ha : a.2 with
  | ok =>
    right
    have hs := seqPhase_eq_of_ok b ha
    rw [hs] at h
    exact ⟨rfl, h, by rw [hs]⟩
  | fail e2 =>
    left
    have hs := seqPhase_eq_of_stop b (by rw [ha]; intro hcon; cases hcon)
    rw [hs] at h
    rw [ha] at h
    exact ⟨h, by rw [hs]⟩
  | hang =>
    have hs := seqPhase_eq_of_stop b (by rw [ha]; intro hcon; cases hcon)
    rw [hs] at h
    rw [ha] at h
    cases h

theorem seqPhase_not_mem (a b : List DMAction × PhaseOut) (x : DMAction)
    (ha : x ∉ a.1) (hb : x ∉ b.1) : x ∉ (seqPhase a b).1 := by
  unfold seqPhase
  cases h2 : a.2 with
  | ok =>
    intro hmem
    rcases List.mem_append.1 hmem with h | h
    · exact ha h
    · exact hb h
  | fail e => exact ha
  | hang => exact ha

theorem gpuEvictionPhase_fail_cases (cfg : DMConfig) (env : DMEnv)
    (annot : String) (e : UErr)
    (h : (gpuEvictionPhase cfg env annot).2 = .fail e) :
    e = .cordonFailed ∨ e = .gpuPodsNotDrained ∨ e = .drainNodeFailed ∨
      e = .cleanupDriverFailed := by
  unfold gpuEvictionPhase at h
  split_ifs at h <;> simp_all

theorem moduleUnloadPhase_fail_cases (cfg : DMConfig) (env : DMEnv)
    (annot : String) (e : UErr)
    (h : (moduleUnloadPhase cfg env annot).2 = .fail e) :
    e = .drainNodeFailed ∨ e = .cleanupDriverFailed ∨
      e = .uninstallComponentsFailed := by
  unfold moduleUnloadPhase at h
  split_ifs at h <;> simp_all

theorem unbindPhase_fail_cases (cfg : DMConfig) (env : DMEnv) (annot : String)
    (e : UErr) (h : (unbindPhase cfg env annot).2 = .fail e) :
    e = .unbindVfioFailed := by
  unfold unbindPhase at h
  split_ifs at h
  all_goals simp_all

theorem finalPhase_fail_cases (cfg : DMConfig) (env : DMEnv) (annot : String)
    (e : UErr) (h : (finalPhase cfg env annot).2 = .fail e) :
    e = .nouveauUnloadFailed := by
  unfold finalPhase at h
  split_ifs at h <;> simp_all

theorem gpuEvictionPhase_fail_reschedule (cfg : DMConfig) (env : DMEnv)
    (annot : String) (e : UErr)
    (h : (gpuEvictionPhase cfg env annot).2 = .fail e)
    (hne : e ≠ .cordonFailed) :
    DMAction.reschedule ∈ (gpuEvictionPhase cfg env annot).1 := by
  unfold gpuEvictionPhase at h ⊢
  split_ifs at h ⊢ <;> simp_all [reschedule_mem_cleanupOnFailure]

theorem moduleUnloadPhase_fail_reschedule (cfg : DMConfig) (env : DMEnv)
    (annot : String) (e : UErr)
    (h : (moduleUnloadPhase cfg env annot).2 = .fail e) :
    DMAction.reschedule ∈ (moduleUnloadPhase cfg env annot).1 := by
  unfold moduleUnloadPhase at h ⊢
  split_ifs at h ⊢ <;> simp_all [reschedule_mem_cleanupOnFailure]

theorem unbindPhase_fail_reschedule (cfg : DMConfig) (env : DMEnv)
    (annot : String) (e : UErr)
    (h : (unbindPhase cfg env annot).2 = .fail e) :
    DMAction.reschedule ∈ (unbindPhase cfg env annot).1 := by
  unfold unbindPhase at h ⊢
  split_ifs at h ⊢
  all_goals simp_all [reschedule_mem_cleanupOnFailure]

theorem finalPhase_reschedule (cfg : DMConfig) (env : DMEnv) (annot : String) :
    DMAction.reschedule ∈ (finalPhase cfg env annot).1 := by
  unfold finalPhase
  split_ifs <;> simp

theorem uncordon_mem_cleanupOnFailure (cfg : DMConfig) (annot : String)
    (hcond : (isGPUPodEvictionEnabled cfg annot ||
      isAutoDrainEnabled cfg annot) = true) :
    DMAction.uncordon ∈ cleanupOnFailure cfg annot := by
  unfold cleanupOnFailure
  rw [hcond]
  simp

theorem gpuEvictionPhase_fail_uncordon (cfg : DMConfig) (env : DMEnv)
    (annot : String) (e : UErr)
    (h : (gpuEvictionPhase cfg env annot).2 = .fail e)
    (hne : e ≠ .cordonFailed)
    (hcond : (isGPUPodEvictionEnabled cfg annot ||
      isAutoDrainEnabled cfg annot) = true) :
    DMAction.uncordon ∈ (gpuEvictionPhase cfg env annot).1 := by
  have hcl := uncordon_mem_cleanupOnFailure cfg annot hcond
  unfold gpuEvictionPhase at h ⊢
  split_ifs at h ⊢ <;> simp_all

theorem moduleUnloadPhase_fail_uncordon (cfg : DMConfig) (env : DMEnv)
    (annot : String) (e : UErr)
    (h : (moduleUnloadPhase cfg env annot).2 = .fail e)
    (hcond : (isGPUPodEvictionEnabled cfg annot ||
      isAutoDrainEnabled cfg annot) = true) :
    DMAction.uncordon ∈ (moduleUnloadPhase cfg env annot).1 := by
  have hcl := uncordon_mem_cleanupOnFailure cfg annot hcond
  unfold moduleUnloadPhase at h ⊢
  split_ifs at h ⊢ <;> simp_all

theorem unbindPhase_fail_uncordon (cfg : DMConfig) (env : DMEnv)
    (annot : String) (e : UErr)
    (h : (unbindPhase cfg env annot).2 = .fail e)
    (hcond : (isGPUPodEvictionEnabled cfg annot ||
      isAutoDrainEnabled cfg annot) = true) :
    DMAction.uncordon ∈ (unbindPhase cfg env annot).1 := by
  have hcl := uncordon_mem_cleanupOnFailure cfg annot hcond
  unfold unbindPhase at h ⊢
  split_ifs at h ⊢
  all_goals simp_all

theorem finalPhase_uncordon (cfg : DMConfig) (env : DMEnv) (annot : String)
    (hcond : (isGPUPodEvictionEnabled cfg annot ||
      isAutoDrainEnabled cfg annot) = true) :
    DMAction.uncordon ∈ (finalPhase cfg env annot).1 := by
  unfold finalPhase
  rw [hcond]
  split_ifs <;> simp_all

theorem uninstallDriver_eq_hostPath (cfg : DMConfig) (env : DMEnv)
    (fuel : Nat) (h1 : env.hostDriver = true) :
    uninstallDriver cfg env fuel = ([.labelPreInstalled],
      some (.error (if env.disableOk then UErr.hostDriverPreinstalled
        else .disableContainerizedFailed))) := by
  unfold uninstallDriver
  rw [h1]
  by_cases h2 : env.disableOk = true <;> simp [h2]

theorem uninstallDriver_eq_skip (cfg : DMConfig) (env : DMEnv) (fuel : Nat)
    (h1 : env.hostDriver = false) (h3 : shouldSkipUninstall cfg env = true) :
    uninstallDriver cfg env fuel = ([], some (.ok ())) := by
  unfold uninstallDriver
  rw [h1, h3]
  simp

theorem uninstallDriver_eq_fetchFail (cfg : DMConfig) (env : DMEnv)
    (fuel : Nat) (h1 : env.hostDriver = false)
    (h3 : shouldSkipUninstall cfg env = false)
    (h4 : env.fetchLabelsOk = false) :
    uninstallDriver cfg env fuel =
      ([.fetchLabels], some (.error .fetchLabelsFailed)) := by
  unfold uninstallDriver
  rw [h1, h3, h4]
  simp

theorem uninstallDriver_eq_annotFail (cfg : DMConfig) (env : DMEnv)
    (fuel : Nat) (msg : String) (h1 : env.hostDriver = false)
    (h3 : shouldSkipUninstall cfg env = false)
    (h4 : env.fetchLabelsOk = true) (hann : env.annotValue = .error msg) :
    uninstallDriver cfg env fuel =
      ([.fetchLabels, .fetchAnnot], some (.error .fetchAnnotFailed)) := by
  unfold uninstallDriver
  rw [h1, h3, h4, hann]
  simp

theorem uninstallDriver_eq_evictFail (cfg : DMConfig) (env : DMEnv)
    (fuel : Nat) (annot : String) (h1 : env.hostDriver = false)
    (h3 : shouldSkipUninstall cfg env = false)
    (h4 : env.fetchLabelsOk = true) (hann : env.annotValue = .ok annot)
    (hev : env.evictOk = false) :
    uninstallDriver cfg env fuel =
      ([.fetchLabels, .fetchAnnot, .pauseComponents] ++
        cleanupOnFailure cfg annot, some (.error .evictComponentsFailed)) := by
  unfold uninstallDriver
  rw [h1, h3, h4, hann, hev]
  simp

theorem uninstallDriver_eq_main (cfg : DMConfig) (env : DMEnv) (fuel : Nat)
    (annot : String) (h1 : env.hostDriver = false)
    (h3 : shouldSkipUninstall cfg env = false)
    (h4 : env.fetchLabelsOk = true) (hann : env.annotValue = .ok annot)
    (hev : env.evictOk = true) :
    uninstallDriver cfg env fuel = mainResult cfg env fuel annot := by
  unfold uninstallDriver
  rw [h1, h3, h4, hann, hev]
  simp

/-- C9: every return of `waitForMofedDriver` carries a nil error (the poll
loop has no timeout and no error exit), so the caller's "failed to wait for
MOFED driver" branch of `uninstallDriver` is unreachable. -/
theorem waitForMofedDriver_never_fails :
    (∀ (useHost : Bool) (readyHost readyFile : Nat → Bool) (fuel k : Nat)
        (r : Except UErr Unit),
      waitForMofedDriver useHost readyHost readyFile fuel k = some r →
      r = .ok ()) ∧
    (∀ (cfg : DMConfig) (env : DMEnv) (fuel : Nat),
      (uninstallDriver cfg env fuel).2 ≠ some (.error .mofedWaitFailed)) := by
  refine ⟨fun u rh rf fuel k r h =>
    waitForMofedDriver_ok_aux u rh rf fuel k r h, ?_⟩
  intro cfg env fuel hcontra
  cases h1 : env.hostDriver with
  | true =>
    rw [uninstallDriver_eq_hostPath cfg env fuel h1] at hcontra
    by_cases h2 : env.disableOk = true <;> simp [h2] at hcontra
  | false =>
    cases h3 : shouldSkipUninstall cfg env with
    | true =>
      rw [uninstallDriver_eq_skip cfg env fuel h1 h3] at hcontra
      simp at hcontra
    | false =>
      cases h4 : env.fetchLabelsOk with
      | false =>
        rw [uninstallDriver_eq_fetchFail cfg env fuel h1 h3 h4] at hcontra
        simp at hcontra
      | true =>
        cases hann : env.annotValue with
        | error msg =>
          rw [uninstallDriver_eq_annotFail cfg env fuel msg h1 h3 h4 hann]
            at hcontra
          simp at hcontra
        | ok annot =>
          cases hev : env.evictOk with
          | false =>
            rw [uninstallDriver_eq_evictFail cfg env fuel annot h1 h3 h4 hann
              hev] at hcontra
            simp at hcontra
          | true =>
            rw [uninstallDriver_eq_main cfg env fuel annot h1 h3 h4 hann hev]
              at hcontra
            unfold mainResult at hcontra
            have hr2 : (phasesResult cfg env fuel annot).2 =
                .fail .mofedWaitFailed := by
              cases h2 : (phasesResult cfg env fuel annot).2 with
              | ok => rw [h2] at hcontra; simp [outcomeOf] at hcontra
              | hang => rw [h2] at hcontra; simp [outcomeOf] at hcontra
              | fail e =>
                rw [h2] at hcontra
                simp [outcomeOf] at hcontra
                rw [hcontra]
            unfold phasesResult at hr2
            rcases seqPhase_fail_split _ _ _ hr2 with ⟨hA, _⟩ | ⟨_, hB, _⟩
            · rcases gpuEvictionPhase_fail_cases _ _ _ _ hA with
                h | h | h | h <;> cases h
            · rcases seqPhase_fail_split _ _ _ hB with ⟨hM, _⟩ | ⟨_, hC, _⟩
              · rcases moduleUnloadPhase_fail_cases _ _ _ _ hM with
                  h | h | h <;> cases h
              · rcases seqPhase_fail_split _ _ _ hC with ⟨hU, _⟩ | ⟨_, hD, _⟩
                · cases unbindPhase_fail_cases _ _ _ _ hU
                · rcases seqPhase_fail_split _ _ _ hD with
                    ⟨hMo, _⟩ | ⟨_, hF, _⟩
                  · exact absurd hMo (mofedPhase_not_fail _ _ _ _)
                  · cases finalPhase_fail_cases _ _ _ _ hF

/-- C9 witness: the wait loop instantiated at a probe that reports ready on
the first poll, via the theorem itself. -/
theorem waitForMofedDriver_never_fails_witness :
    waitForMofedDriver false (fun _ => true) (fun _ => true) 1 0 =
      some (.ok ()) ∧
    ((.ok () : Except UErr Unit) = .ok ()) :=
  ⟨rfl, waitForMofedDriver_never_fails.1 false (fun _ => true) (fun _ => true)
    1 0 (.ok ()) rfl⟩

theorem isAutoDrainEnabled_policy_true (cfg : DMConfig) :
    isAutoDrainEnabled cfg "true" = false := rfl

theorem isGPUPodEvictionEnabled_policy_true (cfg : DMConfig) :
    isGPUPodEvictionEnabled cfg "true" = false := rfl

theorem cleanupOnFailure_policy_true (cfg : DMConfig) :
    cleanupOnFailure cfg "true" = [DMAction.reschedule] := by
  unfold cleanupOnFailure
  rw [isGPUPodEvictionEnabled_policy_true, isAutoDrainEnabled_policy_true]
  simp

theorem gpuEvictionPhase_policy_true (cfg : DMConfig) (env : DMEnv) :
    gpuEvictionPhase cfg env "true" = ([], .ok) := by
  unfold gpuEvictionPhase
  rw [isGPUPodEvictionEnabled_policy_true]
  simp

theorem moduleUnloadPhase_policy_true_avoid (cfg : DMConfig) (env : DMEnv)
    (x : DMAction) (hx : x = .cordon ∨ x = .nvDrain ∨ x = .drainNode) :
    x ∉ (moduleUnloadPhase cfg env "true").1 := by
  unfold moduleUnloadPhase
  rw [isAutoDrainEnabled_policy_true, cleanupOnFailure_policy_true]
  rcases hx with rfl | rfl | rfl <;> split_ifs <;> simp_all

theorem unbindPhase_policy_true_avoid (cfg : DMConfig) (env : DMEnv)
    (x : DMAction) (hx : x = .cordon ∨ x = .nvDrain ∨ x = .drainNode) :
    x ∉ (unbindPhase cfg env "true").1 := by
  unfold unbindPhase
  rw [cleanupOnFailure_policy_true]
  rcases hx with rfl | rfl | rfl <;> split_ifs <;> simp_all

theorem finalPhase_policy_true_avoid (cfg : DMConfig) (env : DMEnv)
    (x : DMAction) (hx : x = .cordon ∨ x = .nvDrain ∨ x = .drainNode) :
    x ∉ (finalPhase cfg env "true").1 := by
  unfold finalPhase
  rw [isGPUPodEvictionEnabled_policy_true, isAutoDrainEnabled_policy_true]
  rcases hx with rfl | rfl | rfl <;> split_ifs <;> simp_all

/-- C5: when the node's auto-upgrade annotation value is `"true"`, the run
never cordons the node, never runs the GPU-pod eviction (`nvdrain`), and
never falls back to a full node drain, whatever the eviction and auto-drain
flags say. -/
theorem uninstallDriver_policy_true_never_cordons (cfg : DMConfig)
    (env : DMEnv) (fuel : Nat) (h : env.annotValue = Except.ok "true") :
    DMAction.cordon ∉ (uninstallDriver cfg env fuel).1 ∧
    DMAction.nvDrain ∉ (uninstallDriver cfg env fuel).1 ∧
    DMAction.drainNode ∉ (uninstallDriver cfg env fuel).1 := by
  have key : ∀ x : DMAction, x = .cordon ∨ x = .nvDrain ∨ x = .drainNode →
      x ∉ (uninstallDriver cfg env fuel).1 := by
    intro x hx
    cases h1 : env.hostDriver with
    | true =>
      rw [uninstallDriver_eq_hostPath cfg env fuel h1]
      rcases hx with rfl | rfl | rfl <;> simp
    | false =>
      cases h3 : shouldSkipUninstall cfg env with
      | true =>
        rw [uninstallDriver_eq_skip cfg env fuel h1 h3]
        simp
      | false =>
        cases h4 : env.fetchLabelsOk with
        | false =>
          rw [uninstallDriver_eq_fetchFail cfg env fuel h1 h3 h4]
          rcases hx with rfl | rfl | rfl <;> simp
        | true =>
          cases hev : env.evictOk with
          | false =>
            rw [uninstallDriver_eq_evictFail cfg env fuel "true" h1 h3 h4 h
              hev, cleanupOnFailure_policy_true]
            rcases hx with rfl | rfl | rfl <;> simp
          | true =>
            rw [uninstallDriver_eq_main cfg env fuel "true" h1 h3 h4 h hev]
            unfold mainResult
            intro hmem
            rcases List.mem_append.1 hmem with hpre | hrest
            · rcases hx with rfl | rfl | rfl <;> simp at hpre
            · have hnot : x ∉ (phasesResult cfg env fuel "true").1 := by
                unfold phasesResult
                apply seqPhase_not_mem
                · rw [gpuEvictionPhase_policy_true]
                  simp
                · apply seqPhase_not_mem
                  · exact moduleUnloadPhase_policy_true_avoid cfg env x hx
                  · apply seqPhase_not_mem
                    · exact unbindPhase_policy_true_avoid cfg env x hx
                    · apply seqPhase_not_mem
                      · rw [mofedPhase_trace_nil]
                        simp
                      · exact finalPhase_policy_true_avoid cfg env x hx
              exact hnot hrest
  exact ⟨key _ (Or.inl rfl), key _ (Or.inr (Or.inl rfl)),
    key _ (Or.inr (Or.inr rfl))⟩

/-- C5 witness: with the annotation `"true"` and both flags on, the concrete
run performs no cordon, no GPU-pod drain and no fallback drain. -/
theorem uninstallDriver_policy_true_never_cordons_witness :
    policyTrueEnv.annotValue = Except.ok "true" ∧
    (DMAction.cordon ∉ (uninstallDriver policyTrueConfig policyTrueEnv 1).1 ∧
      DMAction.nvDrain ∉ (uninstallDriver policyTrueConfig policyTrueEnv 1).1 ∧
      DMAction.drainNode ∉
        (uninstallDriver policyTrueConfig policyTrueEnv 1).1) :=
  ⟨rfl, uninstallDriver_policy_true_never_cordons policyTrueConfig
    policyTrueEnv 1 rfl⟩

/-- C7: without force-reinstall, with the driver loaded and a desired version
set (and no pre-installed host driver): a successful version detection that
matches the desired version makes `uninstallDriver` return success at once
with no action attempted, while a failed detection makes the run proceed into
the full uninstall instead of skipping. -/
theorem uninstallDriver_skip_on_version_match (cfg : DMConfig) (env : DMEnv)
    (fuel : Nat) (hhost : env.hostDriver = false)
    (hforce : cfg.forceReinstall = false) (hloaded : env.driverLoaded = true)
    (hver : cfg.driverVersion ≠ "") :
    (∀ v, env.detect = .ok v → v = cfg.driverVersion →
      uninstallDriver cfg env fuel = ([], some (.ok ()))) ∧
    (∀ msg, env.detect = .error msg →
      shouldSkipUninstall cfg env = false ∧
      DMAction.fetchLabels ∈ (uninstallDriver cfg env fuel).1) := by
  have hvb : (cfg.driverVersion == "") = false := by
    simp only [beq_eq_false_iff_ne, ne_eq]
    exact hver
  constructor
  · intro v hdet hmatch
    have hskip : shouldSkipUninstall cfg env = true := by
      unfold shouldSkipUninstall
      rw [hforce, hloaded, hvb, hdet, hmatch]
      simp
    exact uninstallDriver_eq_skip cfg env fuel hhost hskip
  · intro msg hdet
    have hskip : shouldSkipUninstall cfg env = false := by
      unfold shouldSkipUninstall
      rw [hforce, hloaded, hvb, hdet]
      simp
    refine ⟨hskip, ?_⟩
    cases h4 : env.fetchLabelsOk with
    | false =>
      rw [uninstallDriver_eq_fetchFail cfg env fuel hhost hskip h4]
      simp
    | true =>
      cases hann : env.annotValue with
      | error m2 =>
        rw [uninstallDriver_eq_annotFail cfg env fuel m2 hhost hskip h4 hann]
        simp
      | ok annot =>
        cases hev : env.evictOk with
        | false =>
          rw [uninstallDriver_eq_evictFail cfg env fuel annot hhost hskip h4
            hann hev]
          simp
        | true =>
          rw [uninstallDriver_eq_main cfg env fuel annot hhost hskip h4 hann
            hev]
          unfold mainResult
          simp

/-- C7 witness: the concrete matching-version run skips the whole uninstall
and succeeds without touching the node. -/
theorem uninstallDriver_skip_on_version_match_witness :
    (skipMatchEnv.hostDriver = false ∧ skipMatchConfig.forceReinstall = false ∧
      skipMatchEnv.driverLoaded = true ∧ skipMatchConfig.driverVersion ≠ "" ∧
      skipMatchEnv.detect = .ok "570.1") ∧
    uninstallDriver skipMatchConfig skipMatchEnv 1 = ([], some (.ok ())) :=
  ⟨⟨rfl, rfl, rfl, by decide, rfl⟩,
    (uninstallDriver_skip_on_version_match skipMatchConfig skipMatchEnv 1 rfl
      rfl rfl (by decide)).1 "570.1" rfl rfl⟩

/-- C4 (amended): every fatal step after the label-fetch phase other than the
cordon-node failure routes through the rollback before the error is returned:
the trace contains the component-reschedule attempt, and also the uncordon
attempt whenever GPU-pod eviction or auto-drain applies under the fetched
policy value; and the outcomes of the two rollback calls (uncordon,
reschedule) never change the run result. -/
theorem uninstallDriver_rollback_before_error :
    (∀ (cfg : DMConfig) (env : DMEnv) (fuel : Nat) (e : UErr),
      (uninstallDriver cfg env fuel).2 = some (.error e) →
      e ≠ .hostDriverPreinstalled → e ≠ .disableContainerizedFailed →
      e ≠ .fetchLabelsFailed → e ≠ .fetchAnnotFailed → e ≠ .cordonFailed →
      DMAction.reschedule ∈ (uninstallDriver cfg env fuel).1) ∧
    (∀ (cfg : DMConfig) (env : DMEnv) (fuel : Nat) (e : UErr)
        (annot : String),
      (uninstallDriver cfg env fuel).2 = some (.error e) →
      env.annotValue = .ok annot →
      (isGPUPodEvictionEnabled cfg annot ||
        isAutoDrainEnabled cfg annot) = true →
      e ≠ .hostDriverPreinstalled → e ≠ .disableContainerizedFailed →
      e ≠ .fetchLabelsFailed → e ≠ .fetchAnnotFailed → e ≠ .cordonFailed →
      DMAction.uncordon ∈ (uninstallDriver cfg env fuel).1) ∧
    (∀ (cfg : DMConfig) (env : DMEnv) (fuel : Nat) (b1 b2 : Bool),
      uninstallDriver cfg
        { env with uncordonOk := b1, rescheduleOk := b2 } fuel =
      uninstallDriver cfg env fuel) := by
  refine ⟨?_, ?_, ?_⟩
  · intro cfg env fuel e hout hne1 hne2 hne3 hne4 hne5
    cases h1 : env.hostDriver with
    | true =>
      rw [uninstallDriver_eq_hostPath cfg env fuel h1] at hout
      by_cases h2 : env.disableOk = true
      · rw [if_pos h2] at hout
        simp at hout
        exact absurd hout.symm hne1
      · rw [if_neg h2] at hout
        simp at hout
        exact absurd hout.symm hne2
    | false =>
      cases h3 : shouldSkipUninstall cfg env with
      | true =>
        rw [uninstallDriver_eq_skip cfg env fuel h1 h3] at hout
        simp at hout
      | false =>
        cases h4 : env.fetchLabelsOk with
        | false =>
          rw [uninstallDriver_eq_fetchFail cfg env fuel h1 h3 h4] at hout
          simp at hout
          exact absurd hout.symm hne3
        | true =>
          cases hann : env.annotValue with
          | error msg =>
            rw [uninstallDriver_eq_annotFail cfg env fuel msg h1 h3 h4 hann]
              at hout
            simp at hout
            exact absurd hout.symm hne4
          | ok annot =>
            cases hev : env.evictOk with
            | false =>
              rw [uninstallDriver_eq_evictFail cfg env fuel annot h1 h3 h4
                hann hev]
              simp [reschedule_mem_cleanupOnFailure]
            | true =>
              rw [uninstallDriver_eq_main cfg env fuel annot h1 h3 h4 hann
                hev] at hout ⊢
              unfold mainResult at hout ⊢
              have hr2 : (phasesResult cfg env fuel annot).2 = .fail e := by
                cases h2 : (phasesResult cfg env fuel annot).2 with
                | ok => rw [h2] at hout; simp [outcomeOf] at hout
                | hang => rw [h2] at hout; simp [outcomeOf] at hout
                | fail e2 =>
                  rw [h2] at hout
                  simp [outcomeOf] at hout
                  rw [hout]
              have hmem : DMAction.reschedule ∈
                  (phasesResult cfg env fuel annot).1 := by
                unfold phasesResult at hr2 ⊢
                rcases seqPhase_fail_split _ _ _ hr2 with ⟨hA, htr⟩ |
                  ⟨_, hB, htr⟩
                · rw [htr]
                  exact gpuEvictionPhase_fail_reschedule _ _ _ _ hA hne5
                · rw [htr]
                  apply List.mem_append_right
                  rcases seqPhase_fail_split _ _ _ hB with ⟨hM, htr2⟩ |
                    ⟨_, hC, htr2⟩
                  · rw [htr2]
                    exact moduleUnloadPhase_fail_reschedule _ _ _ _ hM
                  · rw [htr2]
                    apply List.mem_append_right
                    rcases seqPhase_fail_split _ _ _ hC with ⟨hU, htr3⟩ |
                      ⟨_, hD, htr3⟩
                    · rw [htr3]
                      exact unbindPhase_fail_reschedule _ _ _ _ hU
                    · rw [htr3]
                      apply List.mem_append_right
                      rcases seqPhase_fail_split _ _ _ hD with ⟨hMo, htr4⟩ |
                        ⟨_, _, htr4⟩
                      · exact absurd hMo (mofedPhase_not_fail _ _ _ _)
                      · rw [htr4]
                        apply List.mem_append_right
                        exact finalPhase_reschedule _ _ _
              exact List.mem_append_right _ hmem
  · intro cfg env fuel e annot hout hann hcond hne1 hne2 hne3 hne4 hne5
    cases h1 : env.hostDriver with
    | true =>
      rw [uninstallDriver_eq_hostPath cfg env fuel h1] at hout
      by_cases h2 : env.disableOk = true
      · rw [if_pos h2] at hout
        simp at hout
        exact absurd hout.symm hne1
      · rw [if_neg h2] at hout
        simp at hout
        exact absurd hout.symm hne2
    | false =>
      cases h3 : shouldSkipUninstall cfg env with
      | true =>
        rw [uninstallDriver_eq_skip cfg env fuel h1 h3] at hout
        simp at hout
      | false =>
        cases h4 : env.fetchLabelsOk with
        | false =>
          rw [uninstallDriver_eq_fetchFail cfg env fuel h1 h3 h4] at hout
          simp at hout
          exact absurd hout.symm hne3
        | true =>
          cases hev : env.evictOk with
          | false =>
            rw [uninstallDriver_eq_evictFail cfg env fuel annot h1 h3 h4
              hann hev]
            simp [uncordon_mem_cleanupOnFailure cfg annot hcond]
          | true =>
            rw [uninstallDriver_eq_main cfg env fuel annot h1 h3 h4 hann
              hev] at hout ⊢
            unfold mainResult at hout ⊢
            have hr2 : (phasesResult cfg env fuel annot).2 = .fail e := by
              cases h2 : (phasesResult cfg env fuel annot).2 with
              | ok => rw [h2] at hout; simp [outcomeOf] at hout
              | hang => rw [h2] at hout; simp [outcomeOf] at hout
              | fail e2 =>
                rw [h2] at hout
                simp [outcomeOf] at hout
                rw [hout]
            have hmem : DMAction.uncordon ∈
                (phasesResult cfg env fuel annot).1 := by
              unfold phasesResult at hr2 ⊢
              rcases seqPhase_fail_split _ _ _ hr2 with ⟨hA, htr⟩ |
                ⟨_, hB, htr⟩
              · rw [htr]
                exact gpuEvictionPhase_fail_uncordon _ _ _ _ hA hne5 hcond
              · rw [htr]
                apply List.mem_append_right
                rcases seqPhase_fail_split _ _ _ hB with ⟨hM, htr2⟩ |
                  ⟨_, hC, htr2⟩
                · rw [htr2]
                  exact moduleUnloadPhase_fail_uncordon _ _ _ _ hM hcond
                · rw [htr2]
                  apply List.mem_append_right
                  rcases seqPhase_fail_split _ _ _ hC with ⟨hU, htr3⟩ |
                    ⟨_, hD, htr3⟩
                  · rw [htr3]
                    exact unbindPhase_fail_uncordon _ _ _ _ hU hcond
                  · rw [htr3]
                    apply List.mem_append_right
                    rcases seqPhase_fail_split _ _ _ hD with ⟨hMo, htr4⟩ |
                      ⟨_, _, htr4⟩
                    · exact absurd hMo (mofedPhase_not_fail _ _ _ _)
                    · rw [htr4]
                      apply List.mem_append_right
                      exact finalPhase_uncordon _ _ _ hcond
            exact List.mem_append_right _ hmem
  · intro cfg env fuel b1 b2
    cases env
    rfl

/-- C4 counterexample: when the cordon call fails — a fatal step after the
label-fetch phase, with the component labels already paused — the error is
returned without any rollback: no reschedule and no uncordon is attempted. -/
theorem uninstallDriver_cordon_failure_skips_rollback :
    (uninstallDriver cordonFailConfig cordonFailEnv 1).2 =
      some (.error .cordonFailed) ∧
    DMAction.pauseComponents ∈
      (uninstallDriver cordonFailConfig cordonFailEnv 1).1 ∧
    DMAction.reschedule ∉ (uninstallDriver cordonFailConfig cordonFailEnv 1).1 ∧
    DMAction.uncordon ∉ (uninstallDriver cordonFailConfig cordonFailEnv 1).1 :=
  ⟨rfl, by decide, by decide, by decide⟩

/-- C4 witness: the failed-unbind run (GPU-pod eviction applies) returns its
error only after both rollback attempts — the reschedule and the uncordon —
appear in the trace. -/
theorem uninstallDriver_rollback_before_error_witness :
    ((uninstallDriver cordonFailConfig unbindFailEnv 1).2 =
      some (.error .unbindVfioFailed) ∧
      unbindFailEnv.annotValue = Except.ok "" ∧
      (isGPUPodEvictionEnabled cordonFailConfig "" ||
        isAutoDrainEnabled cordonFailConfig "") = true ∧
      (UErr.unbindVfioFailed ≠ .hostDriverPreinstalled) ∧
      (UErr.unbindVfioFailed ≠ .disableContainerizedFailed) ∧
      (UErr.unbindVfioFailed ≠ .fetchLabelsFailed) ∧
      (UErr.unbindVfioFailed ≠ .fetchAnnotFailed) ∧
      (UErr.unbindVfioFailed ≠ .cordonFailed)) ∧
    DMAction.reschedule ∈ (uninstallDriver cordonFailConfig unbindFailEnv 1).1 ∧
    DMAction.uncordon ∈ (uninstallDriver cordonFailConfig unbindFailEnv 1).1 :=
  ⟨⟨rfl, rfl, by decide, by decide, by decide, by decide, by decide,
      by decide⟩,
    uninstallDriver_rollback_before_error.1 cordonFailConfig unbindFailEnv 1
      .unbindVfioFailed rfl (by decide) (by decide) (by decide) (by decide)
      (by decide),
    uninstallDriver_rollback_before_error.2.1 cordonFailConfig unbindFailEnv 1
      .unbindVfioFailed "" rfl rfl (by decide) (by decide) (by decide)
      (by decide) (by decide) (by decide)⟩
